import Mathlib

set_option maxHeartbeats 1000000

/-! Verification of the x402 payment-gating middleware (Python sources under
src/python/x402) against its specification: a shallow embedding of the price
normalizer (common.py), the path matcher (fastapi/middleware.py), the wire
types (types.py) and the request gate (fastapi/middleware.py and
flask/middleware.py), followed by theorems about the embedded definitions. -/

/-! Decimal and integer string parsing, modelling the Python primitives
`int(s)` and `Decimal(s)` on the forms the middleware feeds them. -/

/-- Numeric value of a decimal digit character. -/
def digitVal (c : Char) : Nat := c.toNat - 48

/-- Base-10 number denoted by a list of digit characters. -/
def natFromDigits (l : List Char) : Nat :=
  l.foldl (fun acc c => acc * 10 + digitVal c) 0

/-- Parse a nonempty all-digit character list as a natural number. -/
def parseNatDigits (l : List Char) : Option Nat :=
  if l ≠ [] ∧ l.all Char.isDigit then some (natFromDigits l) else none

/-- Models Python `int(s)` for a string `s`, on the subset consisting of an
optional sign followed by digits (whitespace and underscore forms elided). -/
def pyIntParse (s : String) : Option Int :=
  match s.data with
  | '-' :: rest => (parseNatDigits rest).map (fun n => -(n : Int))
  | '+' :: rest => (parseNatDigits rest).map (fun n => (n : Int))
  | l => (parseNatDigits l).map (fun n => (n : Int))

/-- Split a character list at the '.' separators, used to read a fixed-point
decimal literal. -/
def splitOnDot : List Char → List (List Char)
  | [] => [[]]
  | c :: rest =>
    let r := splitOnDot rest
    if c == '.' then [] :: r
    else
      match r with
      | [] => [[c]]
      | h :: t => (c :: h) :: t

/-- Models Python `Decimal(s)` on unsigned fixed-point literals (forms
`digits`, `digits.digits`, `.digits`, `digits.`): yields the mantissa and the
number of fractional digits, the denoted value being mantissa / 10 ^ frac. -/
def parseDecimalString (s : String) : Option (Nat × Nat) :=
  match splitOnDot s.data with
  | [d] => if d ≠ [] ∧ d.all Char.isDigit then some (natFromDigits d, 0) else none
  | [a, b] =>
    if (a ≠ [] ∨ b ≠ []) ∧ a.all Char.isDigit ∧ b.all Char.isDigit then
      some (natFromDigits a * 10 ^ b.length + natFromDigits b, b.length)
    else none
  | _ => none

/-- Exact rational value denoted by a parsed decimal literal. -/
def decValue (m f : Nat) : ℚ := (m : ℚ) / 10 ^ f

/-- Models `s[1:]` applied when `s.startswith("$")` holds, as done by
common.py on price strings. -/
def stripDollar (s : String) : String :=
  match s.data with
  | '$' :: rest => String.mk rest
  | _ => s

/-! Network and stablecoin tables. networks.py is under src/; chains.py is
not, so its lookups are modelled from the spec where noted. -/

/-- The closed set of supported network identifiers (networks.py
`SupportedNetworks`, spec section 6). -/
def SUPPORTED_NETWORKS : List String :=
  ["base", "base-sepolia", "avalanche-fuji", "avalanche"]

/-- Chain id of a supported network name, after `EVM_NETWORK_TO_CHAIN_ID` in
networks.py. Modelled from the spec: `x402.chains.get_chain_id` is not under
src/; the spec (section 6) fixes this closed four-entry table and makes an
unrecognized network an error, modelled as `none`. -/
def get_chain_id (network : String) : Option Nat :=
  if network = "base-sepolia" then some 84532
  else if network = "base" then some 8453
  else if network = "avalanche-fuji" then some 43113
  else if network = "avalanche" then some 43114
  else none

/-- USDC contract address per chain id (common.py `get_usdc_address`). -/
def get_usdc_address (chain_id : Nat) : Option String :=
  if chain_id = 84532 then some ("0x036CbD53842c5426634e7929541eC2318f3dCF7e")
  else if chain_id = 8453 then some ("0x833589fCD6eDb6E08f4c7C32D4f71b54bdA02913")
  else if chain_id = 43113 then some ("0x5425890298aed601595a70AB815c96711a31Bc65")
  else if chain_id = 43114 then some ("0xB97EF9Ef8734C71904D8002F8b6Bc66Dd9c48a6E")
  else none

/-- USDC address table local to the fastapi adapter
(fastapi/middleware.py `get_usdc_address`), which lists only the two Base
chains. -/
def fastapi_get_usdc_address (chain_id : Nat) : Option String :=
  if chain_id = 84532 then some ("0x036CbD53842c5426634e7929541eC2318f3dCF7e")
  else if chain_id = 8453 then some ("0x833589fCD6eDb6E08f4c7C32D4f71b54bdA02913")
  else none

/-- Decimal precision of the network stablecoin. Modelled from the spec:
`x402.chains.get_token_decimals` is not under src/; the spec's static
per-chain stablecoin table gives 6 decimals (base-sepolia USDC example,
spec section 8), and USDC carries 6 decimals on all four chains. -/
def get_token_decimals (chain_id : Nat) (asset : String) : Option Nat :=
  if get_usdc_address chain_id = some asset then some 6 else none

/-- Modelled from the spec: `x402.chains.get_token_name` is not under src/;
the spec only requires a static per-chain display name for the signing
domain, and no claim inspects its value. -/
def get_token_name (_chain_id : Nat) (_asset : String) : String := "USDC"

/-- Modelled from the spec: `x402.chains.get_token_version` is not under
src/; the spec only requires a static signing-domain version string. -/
def get_token_version (_chain_id : Nat) (_asset : String) : String := "2"

/-! Wire types (types.py). -/

/-- types.py `EIP712Domain`: signing-domain metadata. -/
structure Eip712Domain where
  name : String
  version : String
deriving DecidableEq

/-- types.py `TokenAsset`. -/
structure TokenAsset where
  address : String
  decimals : Int
  eip712 : Eip712Domain
deriving DecidableEq

/-- types.py `TokenAmount`: an already-atomic amount plus asset metadata. -/
structure TokenAmount where
  amount : String
  asset : TokenAsset
deriving DecidableEq

/-- types.py `Money`: a USD amount as a string or an int. -/
inductive MoneyVal where
  | str (s : String)
  | int (n : Int)
deriving DecidableEq

/-- types.py `Price = Union[Money, TokenAmount]`. -/
inductive Price where
  | money (m : MoneyVal)
  | token (t : TokenAmount)
deriving DecidableEq

/-- types.py `PaymentRequirements` record contents. -/
structure PaymentRequirements where
  scheme : String
  network : String
  max_amount_required : String
  resource : String
  description : String
  mime_type : String
  output_schema : String
  pay_to : String
  max_timeout_seconds : Int
  asset : String
  extra : Eip712Domain
deriving DecidableEq

/-- Construction of types.py `PaymentRequirements` through pydantic: the
`network` field must lie in the `SupportedNetworks` literal enumeration and
`max_amount_required` must pass the `int(v)` field validator; `none` models
the raised ValidationError. -/
def mkPaymentRequirements (scheme network max_amount_required resource : String)
    (description mime_type output_schema pay_to : String)
    (max_timeout_seconds : Int) (asset : String) (extra : Eip712Domain) :
    Option PaymentRequirements :=
  if SUPPORTED_NETWORKS.contains network ∧ (pyIntParse max_amount_required).isSome then
    some ⟨scheme, network, max_amount_required, resource, description, mime_type,
          output_schema, pay_to, max_timeout_seconds, asset, extra⟩
  else none

/-- types.py `EIP3009Authorization`. -/
structure Eip3009Authorization where
  from_addr : String
  to_addr : String
  value : String
  valid_after : String
  valid_before : String
  nonce : String
deriving DecidableEq

/-- types.py `ExactPaymentPayload`. -/
structure ExactPaymentPayload where
  signature : String
  authorization : Eip3009Authorization
deriving DecidableEq

/-- types.py `PaymentPayload`: the decoded X-PAYMENT credential. -/
structure PaymentPayload where
  x402_version : Int
  scheme : String
  network : String
  payload : ExactPaymentPayload
deriving DecidableEq

/-- types.py `VerifyResponse`. -/
structure VerifyResponse where
  is_valid : Bool
  invalid_reason : Option String
  payer : Option String
deriving DecidableEq

/-- types.py `SettleResponse`. -/
structure SettleResponse where
  success : Bool
  error_reason : Option String
  transaction : Option String
  network : Option String
  payer : Option String
deriving DecidableEq

/-! Price normalization (common.py). -/

/-- common.py `parse_money`: a string amount is '$'-stripped, read as an
exact decimal and scaled by the asset's decimals with truncation toward zero
(`int(Decimal)`); an int amount is returned unchanged with no lookups.
`none` models a raised error. -/
def parse_money (amount : MoneyVal) (address : String) (network : String) : Option Int :=
  match amount with
  | .int n => some n
  | .str s =>
    match parseDecimalString (stripDollar s) with
    | none => none
    | some (m, f) =>
      match get_chain_id network with
      | none => none
      | some chain_id =>
        match get_token_decimals chain_id address with
        | none => none
        | some decimals => some ((m * 10 ^ decimals / 10 ^ f : Nat) : Int)

/-- common.py `process_price_to_atomic_amount`: Money is resolved through the
network and stablecoin tables and scaled to atomic units by exact decimal
multiplication followed by `int` truncation; a TokenAmount is passed through
unchanged. `none` models the raised ValueError. Negative int Money (handled
by Python through `Decimal(str(price))`) is outside the modelled unsigned
decimal subset. -/
def process_price_to_atomic_amount (price : Price) (network : String) :
    Option (String × String × Eip712Domain) :=
  match price with
  | .money mv =>
    let sval := match mv with
      | .str s => stripDollar s
      | .int n => toString n
    match parseDecimalString sval with
    | none => none
    | some (m, f) =>
      match get_chain_id network with
      | none => none
      | some chain_id =>
        match get_usdc_address chain_id with
        | none => none
        | some asset_address =>
          match get_token_decimals chain_id asset_address with
          | none => none
          | some decimals =>
            some (toString (m * 10 ^ decimals / 10 ^ f : Nat),
                  asset_address,
                  ⟨get_token_name chain_id asset_address,
                   get_token_version chain_id asset_address⟩)
  | .token t =>
    some (t.amount, t.asset.address, ⟨t.asset.eip712.name, t.asset.eip712.version⟩)

/-! Path matching (fastapi/middleware.py `_path_is_match`). The Python
standard-library `re.match` and `fnmatch.fnmatch` are modelled on the
constructs the spec names: literals, `.`, backslash escapes and `\d`, the
`* + ?` quantifiers and `^ $` anchors for regexes; `*` and `?` for globs. -/

/-- Atom of the embedded regex subset. -/
inductive RAtom where
  | lit (c : Char)
  | digit
  | dot
deriving DecidableEq

/-- Quantifier of the embedded regex subset. -/
inductive RQuant where
  | one
  | star
  | plus
  | opt
deriving DecidableEq

/-- One quantified atom. -/
structure RItem where
  atom : RAtom
  quant : RQuant
deriving DecidableEq

/-- Whether an atom matches one character (Python `.` matches anything but a
newline without DOTALL). -/
def atomMatch : RAtom → Char → Bool
  | .lit c, x => c == x
  | .digit, x => x.isDigit
  | .dot, x => !(x == '\n')

/-- Suffixes of the text reachable by consuming a (possibly empty) run of
characters matching atom `a` from the front. -/
def starSplits (a : RAtom) : List Char → List (List Char)
  | [] => [[]]
  | c :: cs => (c :: cs) :: (if atomMatch a c then starSplits a cs else [])

/-- Backtracking matcher for the embedded regex subset in Python `re.match`
semantics: the items must match a prefix of the text, the whole text when an
end anchor is present. -/
def reMatchList (endAnchor : Bool) : List RItem → List Char → Bool
  | [], cs => !endAnchor || cs.isEmpty
  | ⟨a, .one⟩ :: rest, cs =>
    match cs with
    | [] => false
    | c :: cs2 => atomMatch a c && reMatchList endAnchor rest cs2
  | ⟨a, .opt⟩ :: rest, cs =>
    reMatchList endAnchor rest cs ||
      (match cs with
       | [] => false
       | c :: cs2 => atomMatch a c && reMatchList endAnchor rest cs2)
  | ⟨a, .star⟩ :: rest, cs =>
    (starSplits a cs).any (fun cs2 => reMatchList endAnchor rest cs2)
  | ⟨a, .plus⟩ :: rest, cs =>
    match cs with
    | [] => false
    | c :: cs2 => atomMatch a c && (starSplits a cs2).any (fun cs3 => reMatchList endAnchor rest cs3)

/-- Characters the embedded regex parser refuses as bare literals. -/
def isRegexSpecialChar (c : Char) : Bool :=
  c == '*' || c == '+' || c == '?' || c == '$' || c == '^' ||
  c == '|' || c == '(' || c == ')' || c == '[' || c == ']' ||
  c == '\x7b' || c == '\x7d'

/-- Fuel-indexed parser turning the supported regex subset into quantified
atoms plus an end-anchor flag; `none` for constructs outside the subset.
The fuel only needs to exceed the input length. -/
def parseItemsFuel : Nat → List Char → Option (List RItem × Bool)
  | 0, _ => none
  | _ + 1, [] => some ([], false)
  | _ + 1, ['$'] => some ([], true)
  | fuel + 1, c :: rest =>
    let step : Option (RAtom × List Char) :=
      if c == '\\' then
        match rest with
        | [] => none
        | d :: rest2 => some (if d == 'd' then RAtom.digit else RAtom.lit d, rest2)
      else if c == '.' then some (RAtom.dot, rest)
      else if isRegexSpecialChar c then none
      else some (RAtom.lit c, rest)
    match step with
    | none => none
    | some (a, rest2) =>
      let qr : RQuant × List Char :=
        match rest2 with
        | '*' :: rest3 => (RQuant.star, rest3)
        | '+' :: rest3 => (RQuant.plus, rest3)
        | '?' :: rest3 => (RQuant.opt, rest3)
        | _ => (RQuant.one, rest2)
      match parseItemsFuel fuel qr.2 with
      | none => none
      | some (items, e) => some (⟨a, qr.1⟩ :: items, e)

/-- Python `re.match(pattern, path)` on the embedded subset: an optional
leading caret (redundant under match anchoring), quantified atoms, an
optional trailing `$`; a pattern outside the subset is treated as
non-matching. `re.match` anchors at the start of the text only. -/
def pyReMatch (pattern path : String) : Bool :=
  let pd := match pattern.data with
    | '^' :: rest => rest
    | l => l
  match parseItemsFuel (pd.length + 1) pd with
  | none => false
  | some (items, endAnchor) => reMatchList endAnchor items path.data

/-- fnmatch-style glob matching of the full text, restricted to the `*` and
`?` constructs the spec describes (character classes elided). -/
def globMatch : List Char → List Char → Bool
  | [], cs => cs.isEmpty
  | p :: ps, cs =>
    if p == '*' then (cs.tails).any (fun cs2 => globMatch ps cs2)
    else
      match cs with
      | [] => false
      | c :: cs2 => (p == '?' || p == c) && globMatch ps cs2

/-- Models `pattern.startswith("regex:")`. -/
def startsWithRegexTag (pattern : String) : Bool :=
  pattern.data.take 6 == "regex:".data

/-- Models `pattern[6:]`, removal of the "regex:" tag. -/
def dropRegexTag (pattern : String) : String :=
  String.mk (pattern.data.drop 6)

/-- Models `"*" in pattern or "?" in pattern`. -/
def containsGlobChar (pattern : String) : Bool :=
  pattern.data.any (fun c => c == '*' || c == '?')

/-- fastapi/middleware.py `_path_is_match.single_path_match`: a three-way
discriminator choosing regex, glob or exact matching from the pattern's
syntax. -/
def single_path_match (pattern request_path : String) : Bool :=
  if startsWithRegexTag pattern then pyReMatch (dropRegexTag pattern) request_path
  else if containsGlobChar pattern then globMatch pattern.data request_path.data
  else pattern.data == request_path.data

/-- A configured path argument: one pattern or a list of patterns. -/
inductive PathSpec where
  | single (s : String)
  | plural (l : List String)
deriving DecidableEq

/-- fastapi/middleware.py `_path_is_match`: disjunction over the given
pattern or patterns. -/
def path_is_match (path : PathSpec) (request_path : String) : Bool :=
  match path with
  | .single s => single_path_match s request_path
  | .plural l => l.any (fun p => single_path_match p request_path)

/-! Credential codec output direction: the X-PAYMENT-RESPONSE header value
(fastapi/middleware.py lines 199-213, flask/middleware.py lines 229-255). -/

/-- Base64 alphabet character at an index. -/
def b64Char (n : Nat) : Char :=
  "ABCDEFGHIJKLMNOPQRSTUVWXYZabcdefghijklmnopqrstuvwxyz0123456789+/".data.getD n '='

/-- Standard base64 of a byte list: 3 bytes to 4 characters, '='-padded. -/
def b64Encode : List Nat → List Char
  | [] => []
  | [a] => [b64Char (a / 4), b64Char (a % 4 * 16), '=', '=']
  | [a, b] => [b64Char (a / 4), b64Char (a % 4 * 16 + b / 16), b64Char (b % 16 * 4), '=']
  | a :: b :: c :: rest =>
    b64Char (a / 4) :: b64Char (a % 4 * 16 + b / 16) ::
    b64Char (b % 16 * 4 + c / 64) :: b64Char (c % 64) :: b64Encode rest

/-- JSON string literal (escape handling elided: the modelled fields carry
plain addresses and identifiers). -/
def jsonStr (s : String) : String := "\"" ++ s ++ "\""

/-- JSON rendering of an optional string field. -/
def jsonOptStr : Option String → String
  | none => "null"
  | some s => jsonStr s

/-- pydantic `model_dump_json` of a SettleResponse: compact JSON, camelCase
aliases, declaration field order. -/
def settleJson (r : SettleResponse) : String :=
  "\x7b\"success\":" ++ (if r.success then "true" else "false") ++
  ",\"errorReason\":" ++ jsonOptStr r.error_reason ++
  ",\"transaction\":" ++ jsonOptStr r.transaction ++
  ",\"network\":" ++ jsonOptStr r.network ++
  ",\"payer\":" ++ jsonOptStr r.payer ++ "\x7d"

/-- Byte list of a string; the modelled wire content is ASCII, where UTF-8
bytes coincide with code points. -/
def strBytes (s : String) : List Nat := s.data.map Char.toNat

/-- The X-PAYMENT-RESPONSE header value: base64 of the JSON-serialized
settlement result. -/
def encodeSettleHeader (r : SettleResponse) : String :=
  String.mk (b64Encode (strBytes (settleJson r)))

/-! The request gate (fastapi/middleware.py `require_payment` and its inner
`middleware`; flask/middleware.py `PaymentMiddleware._create_middleware` and
its inner `middleware`). -/

/-- One configured gate instance after the configuration phase. -/
structure GateConfig where
  parsed_amount : Int
  pay_to_address : String
  path : PathSpec
  asset : String
  description : String
  mime_type : String
  max_deadline_seconds : Int
  network_id : String
  resource : Option String
  output_schema : Option String
deriving DecidableEq

/-- fastapi/middleware.py `require_payment` configuration phase: default the
asset to the network stablecoin from the adapter's own table, then normalize
the price with `parse_money`; `none` models the raised ValueError. -/
def require_payment_setup (amount : MoneyVal) (pay_to_address : String)
    (path : PathSpec) (asset : String) (description mime_type : String)
    (max_deadline_seconds : Int) (network_id : String) (resource : Option String)
    (output_schema : Option String) : Option GateConfig :=
  let assetR : Option String :=
    if asset = "" then (get_chain_id network_id).bind fastapi_get_usdc_address
    else some asset
  match assetR with
  | none => none
  | some a =>
    match parse_money amount a network_id with
    | none => none
    | some pa =>
      some ⟨pa, pay_to_address, path, a, description, mime_type,
            max_deadline_seconds, network_id, resource, output_schema⟩

/-- An inbound HTTP request as the gate sees it: the URL path, the full URL,
and the X-PAYMENT header value, with the empty string standing for an absent
header exactly as `request.headers.get("X-PAYMENT", "")` does. -/
structure HttpRequest where
  path : String
  url : String
  payment_header : String

/-- Outcome of one facilitator call: a decoded response, or a raised
transport-level error (unreachable endpoint, non-JSON or shape-mismatched
body). -/
inductive RemoteOutcome (α : Type) where
  | ok (r : α)
  | transportError

/-- What the gate sends back. `passThrough` is the untouched handler response
of an unmatched request; `handlerPass h` is the handler response of a matched
request, with `h` the attached X-PAYMENT-RESPONSE header if any; `err402`
carries the challenge error string and accepts list; `unhandled` is an
exception propagating out of the gate. -/
inductive GateResponse where
  | passThrough
  | handlerPass (payment_response_header : Option String)
  | err402 (error : String) (accepts : List PaymentRequirements)
  | unhandled
deriving DecidableEq

/-- Trace of one request through the gate: whether the protected handler ran,
whether each facilitator operation was called, and the response. -/
structure GateOutcome where
  handler_invoked : Bool
  verify_called : Bool
  settle_called : Bool
  response : GateResponse
deriving DecidableEq

/-- Settlement-failure policy: the fastapi adapter replaces the response with
a 402 report, the flask adapter logs and passes the unsettled response
through (headers are already sent). -/
inductive SettlePolicy where
  | respond402
  | passUnsettled

/-- The request gate. The credential codec (x402.encoding plus the pydantic
parse, whose module is not under src/) is abstracted as `decode`; the two
facilitator calls are the oracles `verifyOutcome` and `settleOutcome`;
`handler_status` is the status code the protected handler responds with when
invoked. Mirrors fastapi/middleware.py lines 108-213, with `policy`
selecting the flask settlement-failure branch instead
(flask/middleware.py lines 222-255). A settle response with success false
leads the fastapi adapter to read the nonexistent attribute
`settle_response.error`, so its own except-branch answers the bare
"Settle failed". -/
def gate (policy : SettlePolicy) (cfg : GateConfig)
    (decode : String → Except String PaymentPayload)
    (req : HttpRequest)
    (verifyOutcome : RemoteOutcome VerifyResponse)
    (handler_status : Int)
    (settleOutcome : RemoteOutcome SettleResponse) : GateOutcome :=
  if path_is_match cfg.path req.path = false then ⟨true, false, false, .passThrough⟩
  else
    let resource_url := cfg.resource.getD req.url
    match get_chain_id cfg.network_id with
    | none => ⟨false, false, false, .unhandled⟩
    | some chain_id =>
      match mkPaymentRequirements "exact" cfg.network_id (toString cfg.parsed_amount)
          resource_url cfg.description cfg.mime_type
          (cfg.output_schema.getD "\x7b\x7d") cfg.pay_to_address
          cfg.max_deadline_seconds cfg.asset
          ⟨get_token_name chain_id cfg.asset, get_token_version chain_id cfg.asset⟩ with
      | none => ⟨false, false, false, .unhandled⟩
      | some r0 =>
        if req.payment_header = "" then
          ⟨false, false, false, .err402 "No X-PAYMENT header provided" [r0]⟩
        else
          match decode req.payment_header with
          | .error e =>
            ⟨false, false, false, .err402 ("Invalid payment header format: " ++ e) [r0]⟩
          | .ok payment =>
            match [r0].find? (fun r => r.scheme == payment.scheme && r.network == payment.network) with
            | none => ⟨false, false, false, .err402 "No matching payment requirements found" [r0]⟩
            | some _selected =>
              match verifyOutcome with
              | .transportError => ⟨false, true, false, .unhandled⟩
              | .ok vr =>
                if vr.is_valid = false then
                  match vr.invalid_reason with
                  | some reason =>
                    ⟨false, true, false, .err402 ("Invalid payment: " ++ reason) [r0]⟩
                  | none => ⟨false, true, false, .unhandled⟩
                else
                  if handler_status < 200 ∨ 300 ≤ handler_status then
                    ⟨true, true, false, .handlerPass none⟩
                  else
                    match settleOutcome with
                    | .transportError =>
                      match policy with
                      | .respond402 => ⟨true, true, true, .err402 "Settle failed" [r0]⟩
                      | .passUnsettled => ⟨true, true, true, .handlerPass none⟩
                    | .ok sr =>
                      if sr.success then
                        ⟨true, true, true, .handlerPass (some (encodeSettleHeader sr))⟩
                      else
                        match policy with
                        | .respond402 => ⟨true, true, true, .err402 "Settle failed" [r0]⟩
                        | .passUnsettled => ⟨true, true, true, .handlerPass none⟩

/-! Concrete sample data, used by the witness theorems. -/

/-- The base-sepolia USDC address. -/
def sampleUsdc : String := "0x036CbD53842c5426634e7929541eC2318f3dCF7e"

/-- A gate configuration as `require_payment` builds it for price "$1.12",
payee 0x1, path /weather on base-sepolia with the defaulted asset. -/
def sampleCfg : GateConfig :=
  ⟨1120000, ("0x1"), .single ("/weather"), sampleUsdc, (""), (""), 60,
   ("base-sepolia"), none, none⟩

/-- A structurally valid decoded credential matching the sample rule. -/
def samplePayment : PaymentPayload :=
  ⟨1, ("exact"), ("base-sepolia"),
   ⟨("sig"), ⟨("0xa"), ("0xb"), ("1120000"), ("0"), ("9"), ("0xn")⟩⟩⟩

/-- A codec that decodes every header to the sample credential. -/
def sampleDecode : String → Except String PaymentPayload := fun _ => .ok samplePayment

/-- A matched request carrying a credential header. -/
def sampleReq : HttpRequest := ⟨("/weather"), ("http://x/weather"), ("XHDR")⟩

/-- The same matched request without a credential header. -/
def sampleReqNoHdr : HttpRequest := ⟨("/weather"), ("http://x/weather"), ("")⟩

/-- The requirements entry the gate builds from `sampleCfg` for `sampleReq`. -/
def sampleR0 : PaymentRequirements :=
  ⟨("exact"), ("base-sepolia"), ("1120000"), ("http://x/weather"), (""), (""),
   ("\x7b\x7d"), ("0x1"), 60, sampleUsdc, ⟨("USDC"), ("2")⟩⟩

/-- A successful settlement report. -/
def sampleSettle : SettleResponse :=
  ⟨true, none, some ("0xtx"), some ("base-sepolia"), some ("0xp")⟩

/-- A facilitator acceptance. -/
def sampleValidVr : VerifyResponse := ⟨true, none, some ("0xp")⟩

/-! Helper lemmas. -/

/-- splitOnDot always yields at least one part. -/
lemma splitOnDot_ne_nil (l : List Char) : splitOnDot l ≠ [] := by
  induction l with
  | nil => simp [splitOnDot]
  | cons c rest ih =>
    rcases h : splitOnDot rest with _ | ⟨a, b⟩
    · exact absurd h ih
    · simp only [splitOnDot, h]
      split <;> simp

/-- stripDollar is the identity on strings not led by a dollar sign. -/
lemma stripDollar_eq_self (c : Char) (rest : List Char) (hc : c ≠ '$') :
    stripDollar (String.mk (c :: rest)) = String.mk (c :: rest) := by
  show (match c :: rest with
    | '$' :: r => String.mk r
    | _ => String.mk (c :: rest)) = String.mk (c :: rest)
  split
  · rename_i r heq
    exfalso
    injection heq with h1 h2
    exact hc h1
  · rfl

/-- A dollar-led string is not a decimal literal. -/
lemma parseDecimal_dollar_none (rest : List Char) :
    parseDecimalString (String.mk ('$' :: rest)) = none := by
  unfold parseDecimalString
  have hsp : splitOnDot ('$' :: rest) =
      match splitOnDot rest with
      | [] => [['$']]
      | h :: t => ('$' :: h) :: t := by
    simp [splitOnDot]
  rcases hr : splitOnDot rest with _ | ⟨h, t⟩
  · exact absurd hr (splitOnDot_ne_nil rest)
  · show (match splitOnDot (String.mk ('$' :: rest)).data with
      | [d] => if d ≠ [] ∧ d.all Char.isDigit = true then some (natFromDigits d, 0) else none
      | [a, b] =>
        if (a ≠ [] ∨ b ≠ []) ∧ a.all Char.isDigit = true ∧ b.all Char.isDigit = true then
          some (natFromDigits a * 10 ^ b.length + natFromDigits b, b.length)
        else none
      | _ => none) = none
    have hsp2 : splitOnDot (String.mk ('$' :: rest)).data = ('$' :: h) :: t := by
      show splitOnDot ('$' :: rest) = ('$' :: h) :: t
      rw [hsp, hr]
    rw [hsp2]
    cases t with
    | nil => simp
    | cons t1 t2 =>
      cases t2 with
      | nil => simp
      | cons u v => simp

/-- A string that parses as a decimal literal carries no leading dollar sign,
so stripDollar leaves it unchanged. -/
lemma stripDollar_of_parse (D : String) (m f : Nat)
    (hD : parseDecimalString D = some (m, f)) : stripDollar D = D := by
  cases D with
  | mk l =>
    cases l with
    | nil => rfl
    | cons c rest =>
      by_cases hc : c = '$'
      · subst hc
        rw [parseDecimal_dollar_none rest] at hD
        cases hD
      · exact stripDollar_eq_self c rest hc

/-! Claim C1. -/

/-- C1 (corrected): for every supported network and every parseable decimal
price string D, with or without a leading dollar sign, the normalizer yields
the atomic amount obtained by TRUNCATING D * 10^decimals(N) toward zero (the
floor, values being nonnegative), with decimals from the static stablecoin
table — not the nearest-integer rounding the claim words state. -/
theorem c1_price_normalization_truncates (network : String) (chain_id : Nat)
    (D : String) (m f : Nat) (addr : String) (d : Nat)
    (hchain : get_chain_id network = some chain_id)
    (haddr : get_usdc_address chain_id = some addr)
    (hdec : get_token_decimals chain_id addr = some d)
    (hD : parseDecimalString D = some (m, f)) :
    process_price_to_atomic_amount (.money (.str ("$" ++ D))) network =
      some (toString (m * 10 ^ d / 10 ^ f : Nat), addr,
            ⟨get_token_name chain_id addr, get_token_version chain_id addr⟩)
    ∧ process_price_to_atomic_amount (.money (.str D)) network =
      some (toString (m * 10 ^ d / 10 ^ f : Nat), addr,
            ⟨get_token_name chain_id addr, get_token_version chain_id addr⟩)
    ∧ ((m * 10 ^ d / 10 ^ f : Nat) : ℤ) = ⌊decValue m f * 10 ^ d⌋ := by
  have hsD : stripDollar ("$" ++ D) = D := by
    cases D with
    | mk l => rfl
  have hsD2 : stripDollar D = D := stripDollar_of_parse D m f hD
  refine ⟨?_, ?_, ?_⟩
  · simp only [process_price_to_atomic_amount, hsD, hD, hchain, haddr, hdec]
  · simp only [process_price_to_atomic_amount, hsD2, hD, hchain, haddr, hdec]
  · have h1 : decValue m f * 10 ^ d = (((m * 10 ^ d : ℕ) : ℤ) : ℚ) / ((10 ^ f : ℕ) : ℚ) := by
      unfold decValue
      push_cast
      ring
    rw [h1, Rat.floor_intCast_div_natCast]
    norm_cast

/-- Witness for C1: the dollar price 1.12 on base-sepolia normalizes to
atomic amount 1120000 over the USDC address. -/
theorem c1_price_normalization_truncates_witness :
    process_price_to_atomic_amount (.money (.str ("$1.12"))) ("base-sepolia") =
      some (("1120000"), ("0x036CbD53842c5426634e7929541eC2318f3dCF7e"), ⟨("USDC"), ("2")⟩)
    ∧ (112 * 10 ^ 6 / 10 ^ 2 : Nat) = 1120000 := by
  have h := c1_price_normalization_truncates ("base-sepolia") 84532 ("1.12") 112 2
    ("0x036CbD53842c5426634e7929541eC2318f3dCF7e") 6 (by decide) (by decide) (by decide) (by decide)
  exact ⟨h.1, by decide⟩

/-- Counterexample to C1 as stated: on D = "1.1234567" (exact value
11234567 / 10^7) over base-sepolia (6 decimals) the code produces 1123456,
while rounding D * 10^6 = 1123456.7 to the nearest integer gives 1123457. -/
theorem c1_round_counterexample :
    process_price_to_atomic_amount (.money (.str ("$1.1234567"))) ("base-sepolia") =
      some (("1123456"), ("0x036CbD53842c5426634e7929541eC2318f3dCF7e"), ⟨("USDC"), ("2")⟩)
    ∧ parseDecimalString ("1.1234567") = some (11234567, 7)
    ∧ round (decValue 11234567 7 * 10 ^ 6) = 1123457
    ∧ ((1123456 : Int) ≠ 1123457) := by
  refine ⟨by decide, by decide, ?_, by decide⟩
  rw [round_eq]
  norm_num [decValue]

/-! Claims C6 and C9: the path matcher. -/

/-- C6: the matcher is a three-way discriminator — a "regex:" pattern defers
to anchored regex matching of the remainder, a pattern containing a star or
question mark glob-matches the full path, any other pattern compares for
string equality — a pattern list matches iff some element matches, and the
spec's four concrete examples evaluate as stated. -/
theorem c6_path_matcher_discrimination :
    (∀ pat rp, startsWithRegexTag pat = true →
        single_path_match pat rp = pyReMatch (dropRegexTag pat) rp)
    ∧ (∀ pat rp, startsWithRegexTag pat = false →
        containsGlobChar pat = true →
        single_path_match pat rp = globMatch pat.data rp.data)
    ∧ (∀ pat rp, startsWithRegexTag pat = false →
        containsGlobChar pat = false →
        single_path_match pat rp = (pat.data == rp.data))
    ∧ (∀ l rp, path_is_match (.plural l) rp = l.any (fun p => single_path_match p rp))
    ∧ path_is_match (.single ("/foo")) ("/foo") = true
    ∧ path_is_match (.single ("/bar/*")) ("/bar/123") = true
    ∧ path_is_match (.single ("regex:^/baz/\\d+$")) ("/baz/abc") = false
    ∧ path_is_match (.plural ["/foo", "/bar/*"]) ("/bar/1") = true := by
  refine ⟨?_, ?_, ?_, ?_, by decide, by decide, by decide, by decide⟩
  · intro pat rp h
    simp [single_path_match, h]
  · intro pat rp h1 h2
    simp [single_path_match, h1, h2]
  · intro pat rp h1 h2
    simp [single_path_match, h1, h2]
  · intro l rp
    rfl

/-- Witness for C6: each discriminator branch applied at a concrete input. -/
theorem c6_path_matcher_discrimination_witness :
    single_path_match ("regex:^/a$") ("/a") = pyReMatch (dropRegexTag ("regex:^/a$")) ("/a")
    ∧ single_path_match ("/x/*") ("/x/y") = globMatch ("/x/*").data ("/x/y").data
    ∧ single_path_match ("/x") ("/x") = (("/x").data == ("/x").data) :=
  ⟨c6_path_matcher_discrimination.1 ("regex:^/a$") ("/a") (by decide),
   c6_path_matcher_discrimination.2.1 ("/x/*") ("/x/y") (by decide) (by decide),
   c6_path_matcher_discrimination.2.2.1 ("/x") ("/x") (by decide) (by decide)⟩

/-- Counterexample to C9 as stated: the empty pattern DOES match the empty
request path (the exact-equality branch compares two empty strings). -/
theorem c9_empty_pattern_counterexample :
    path_is_match (.single ("")) ("") = true := by decide

/-- C9 (corrected): the empty pattern matches exactly the empty request
path — it never matches a nonempty one. -/
theorem c9_empty_pattern_matches_only_empty (rp : String) :
    path_is_match (.single ("")) rp = rp.data.isEmpty := by
  show single_path_match ("") rp = rp.data.isEmpty
  simp only [single_path_match, startsWithRegexTag, containsGlobChar]
  cases rp with
  | mk l =>
    cases l with
    | nil => rfl
    | cons c cs => rfl

/-! Claim C7: PaymentRequirements construction validation. -/

/-- C7 (corrected): construction fails when the amount string does not parse
as an INTEGER, and every constructed value's amount string parses as an
integer — but a negative integer string passes the validator, so
non-negativity is not enforced (see the counterexample). -/
theorem c7_max_amount_integer_validation (scheme network maxAmt resource : String)
    (description mime outSchema payTo : String) (ddl : Int) (asset : String)
    (extra : Eip712Domain) :
    (pyIntParse maxAmt = none →
      mkPaymentRequirements scheme network maxAmt resource description mime
        outSchema payTo ddl asset extra = none)
    ∧ (∀ r, mkPaymentRequirements scheme network maxAmt resource description mime
        outSchema payTo ddl asset extra = some r →
        ∃ k, pyIntParse r.max_amount_required = some k) := by
  constructor
  · intro h
    simp [mkPaymentRequirements, h]
  · intro r hr
    unfold mkPaymentRequirements at hr
    split at hr
    · rename_i hcond
      cases hr
      obtain ⟨-, h2⟩ := hcond
      obtain ⟨k, hk⟩ := Option.isSome_iff_exists.mp h2
      exact ⟨k, hk⟩
    · cases hr

/-- Witness for C7: a non-integer amount string is rejected at construction
time. -/
theorem c7_max_amount_integer_validation_witness :
    mkPaymentRequirements ("exact") ("base-sepolia") ("abc") ("r") ("") ("")
      ("s") ("0x1") 60 ("0xA") ⟨("USDC"), ("2")⟩ = none :=
  (c7_max_amount_integer_validation ("exact") ("base-sepolia") ("abc") ("r") ("") ("")
    ("s") ("0x1") 60 ("0xA") ⟨("USDC"), ("2")⟩).1 (by decide)

/-- Counterexample to C7 as stated: the amount string "-5" parses as the
NEGATIVE integer -5, yet construction succeeds, so a successfully
constructed PaymentRequirements need not carry a non-negative amount. -/
theorem c7_negative_amount_counterexample :
    (mkPaymentRequirements ("exact") ("base-sepolia") ("-5") ("r") ("") ("")
      ("s") ("0x1") 60 ("0xA") ⟨("USDC"), ("2")⟩).isSome = true
    ∧ pyIntParse ("-5") = some (-5)
    ∧ ((-5 : Int) < 0) := by
  refine ⟨by decide, by decide, by decide⟩

/-! Claims C8 and C10: pass-through behavior of the normalizer. -/

/-- C8: the normalizer passes a TokenAmount through unchanged — amount,
asset address and signing-domain name and version — with no rescaling and no
table lookups, for every network string. -/
theorem c8_token_amount_passthrough (t : TokenAmount) (network : String) :
    process_price_to_atomic_amount (.token t) network =
      some (t.amount, t.asset.address, ⟨t.asset.eip712.name, t.asset.eip712.version⟩) := rfl

/-- C10: parse_money returns an integer amount unchanged for every address
and network string, recognized or not, with no lookup and no error. -/
theorem c10_parse_money_int_passthrough (n : Int) (address network : String) :
    parse_money (.int n) address network = some n := rfl

/-! Claim C2: the challenge on a missing credential header. -/

/-- C2: on a request matching a configured rule and carrying no X-PAYMENT
header, the gate answers 402 with error exactly "No X-PAYMENT header
provided" and an accepts list of exactly one requirements entry whose
maxAmountRequired is the configured price's normalized atomic amount, and
the handler is never invoked. -/
theorem c2_challenge_without_header (policy : SettlePolicy)
    (amount : MoneyVal) (payTo : String) (path : PathSpec) (asset0 : String)
    (descr mime : String) (ddl : Int) (network : String) (res : Option String)
    (outSchema : Option String) (cfg : GateConfig)
    (hsetup : require_payment_setup amount payTo path asset0 descr mime ddl
        network res outSchema = some cfg)
    (decode : String → Except String PaymentPayload)
    (req : HttpRequest) (vo : RemoteOutcome VerifyResponse) (hs : Int)
    (so : RemoteOutcome SettleResponse)
    (chain_id : Nat) (hchain : get_chain_id cfg.network_id = some chain_id)
    (r0 : PaymentRequirements)
    (hmk : mkPaymentRequirements ("exact") cfg.network_id (toString cfg.parsed_amount)
        (cfg.resource.getD req.url) cfg.description cfg.mime_type
        (cfg.output_schema.getD ("\x7b\x7d")) cfg.pay_to_address
        cfg.max_deadline_seconds cfg.asset
        ⟨get_token_name chain_id cfg.asset, get_token_version chain_id cfg.asset⟩ = some r0)
    (hmatch : path_is_match cfg.path req.path = true)
    (hhdr : req.payment_header = "") :
    gate policy cfg decode req vo hs so =
      ⟨false, false, false, .err402 ("No X-PAYMENT header provided") [r0]⟩
    ∧ r0.max_amount_required = toString cfg.parsed_amount
    ∧ parse_money amount cfg.asset cfg.network_id = some cfg.parsed_amount := by
  refine ⟨?_, ?_, ?_⟩
  · simp only [gate, hmatch, hchain, hmk, hhdr]
    simp
  · unfold mkPaymentRequirements at hmk
    split at hmk
    · cases hmk
      rfl
    · cases hmk
  · simp only [require_payment_setup] at hsetup
    rcases ha : (if asset0 = "" then (get_chain_id network).bind fastapi_get_usdc_address
        else some asset0) with _ | a
    · rw [ha] at hsetup
      cases hsetup
    · rcases hp : parse_money amount a network with _ | pa
      · simp only [ha, hp] at hsetup
        cases hsetup
      · simp only [ha, hp, Option.some.injEq] at hsetup
        subst hsetup
        exact hp

/-- Witness for C2: a matched headerless request against the "$1.12" rule on
base-sepolia is challenged with the normalized amount 1120000. -/
theorem c2_challenge_without_header_witness :
    gate .respond402 sampleCfg sampleDecode sampleReqNoHdr
        (.ok sampleValidVr) 200 (.ok sampleSettle) =
      ⟨false, false, false, .err402 ("No X-PAYMENT header provided") [sampleR0]⟩
    ∧ sampleR0.max_amount_required = toString sampleCfg.parsed_amount
    ∧ parse_money (.str ("$1.12")) sampleCfg.asset sampleCfg.network_id =
        some sampleCfg.parsed_amount :=
  c2_challenge_without_header .respond402 (.str ("$1.12")) ("0x1")
    (.single ("/weather")) ("") ("") ("") 60 ("base-sepolia") none none sampleCfg
    (by decide) sampleDecode sampleReqNoHdr (.ok sampleValidVr) 200 (.ok sampleSettle)
    84532 (by decide) sampleR0 (by decide) (by decide) (by decide)

/-! Claim C3: verify rejection versus verify transport failure. -/

/-- C3: on a matched, decoded, requirements-matched credential, a verify
result with isValid false and a reported reason yields a 402 with error
"Invalid payment: " followed by that reason and no handler invocation,
whereas a transport-level verify failure propagates as an unhandled error —
it is never converted into a 402 — again without invoking the handler. -/
theorem c3_verify_rejected_vs_transport (policy : SettlePolicy) (cfg : GateConfig)
    (decode : String → Except String PaymentPayload)
    (req : HttpRequest) (hs : Int) (so : RemoteOutcome SettleResponse)
    (chain_id : Nat) (hchain : get_chain_id cfg.network_id = some chain_id)
    (r0 : PaymentRequirements)
    (hmk : mkPaymentRequirements ("exact") cfg.network_id (toString cfg.parsed_amount)
        (cfg.resource.getD req.url) cfg.description cfg.mime_type
        (cfg.output_schema.getD ("\x7b\x7d")) cfg.pay_to_address
        cfg.max_deadline_seconds cfg.asset
        ⟨get_token_name chain_id cfg.asset, get_token_version chain_id cfg.asset⟩ = some r0)
    (hmatch : path_is_match cfg.path req.path = true)
    (hhdr : req.payment_header ≠ "")
    (payment : PaymentPayload)
    (hdec : decode req.payment_header = .ok payment)
    (hsel : (r0.scheme == payment.scheme && r0.network == payment.network) = true) :
    (∀ vr reason, vr.is_valid = false → vr.invalid_reason = some reason →
        gate policy cfg decode req (.ok vr) hs so =
          ⟨false, true, false, .err402 ("Invalid payment: " ++ reason) [r0]⟩)
    ∧ gate policy cfg decode req .transportError hs so =
        ⟨false, true, false, .unhandled⟩ := by
  constructor
  · intro vr reason hv hr
    simp [gate, hmatch, hchain, hmk, hhdr, hdec, List.find?, hsel, hv, hr]
  · simp [gate, hmatch, hchain, hmk, hhdr, hdec, List.find?, hsel]

/-- Witness for C3: a facilitator rejection with reason "bad" yields the 402
with error "Invalid payment: bad" and the handler never runs. -/
theorem c3_verify_rejected_vs_transport_witness :
    gate .respond402 sampleCfg sampleDecode sampleReq
        (.ok ⟨false, some ("bad"), none⟩) 200 (.ok sampleSettle) =
      ⟨false, true, false, .err402 ("Invalid payment: " ++ "bad") [sampleR0]⟩ :=
  (c3_verify_rejected_vs_transport .respond402 sampleCfg sampleDecode sampleReq
    200 (.ok sampleSettle) 84532 (by decide) sampleR0 (by decide) (by decide)
    (by decide) samplePayment (by rfl) (by decide)).1
    ⟨false, some ("bad"), none⟩ ("bad") (by rfl) (by rfl)

/-! Claim C4: the settlement proof header. -/

/-- C4: when settlement is attempted and succeeds, the gate attaches the
base64 of the JSON-serialized settle result as the X-PAYMENT-RESPONSE header
on the handler's otherwise unmodified response; and conversely an outbound
response ever carries that header only when the settle call returned success
and the header is that encoding. -/
theorem c4_settle_header_iff_success :
    (∀ (policy : SettlePolicy) (cfg : GateConfig)
        (decode : String → Except String PaymentPayload) (req : HttpRequest)
        (hs : Int) (chain_id : Nat) (r0 : PaymentRequirements)
        (payment : PaymentPayload) (vr : VerifyResponse) (sr : SettleResponse),
      get_chain_id cfg.network_id = some chain_id →
      mkPaymentRequirements ("exact") cfg.network_id (toString cfg.parsed_amount)
        (cfg.resource.getD req.url) cfg.description cfg.mime_type
        (cfg.output_schema.getD ("\x7b\x7d")) cfg.pay_to_address
        cfg.max_deadline_seconds cfg.asset
        ⟨get_token_name chain_id cfg.asset, get_token_version chain_id cfg.asset⟩ = some r0 →
      path_is_match cfg.path req.path = true →
      req.payment_header ≠ "" →
      decode req.payment_header = .ok payment →
      (r0.scheme == payment.scheme && r0.network == payment.network) = true →
      vr.is_valid = true →
      200 ≤ hs → hs < 300 →
      sr.success = true →
      gate policy cfg decode req (.ok vr) hs (.ok sr) =
        ⟨true, true, true, .handlerPass (some (encodeSettleHeader sr))⟩)
    ∧ (∀ (policy : SettlePolicy) (cfg : GateConfig)
        (decode : String → Except String PaymentPayload) (req : HttpRequest)
        (vo : RemoteOutcome VerifyResponse) (hs : Int)
        (so : RemoteOutcome SettleResponse) (h : String),
      (gate policy cfg decode req vo hs so).response = .handlerPass (some h) →
      ∃ sr, so = .ok sr ∧ sr.success = true ∧ h = encodeSettleHeader sr) := by
  constructor
  · intro policy cfg decode req hs chain_id r0 payment vr sr
      hchain hmk hmatch hhdr hdec hsel hvalid hlo hhi hsucc
    have hnot : ¬(hs < 200 ∨ 300 ≤ hs) := by omega
    simp [gate, hmatch, hchain, hmk, hhdr, hdec, List.find?, hsel, hvalid, hnot, hsucc]
  · intro policy cfg decode req vo hs so h hresp
    simp only [gate] at hresp
    repeat' split at hresp
    all_goals simp_all

/-- Witness for C4: the sample verified, settled request comes back with the
handler's 200 response plus the encoded settlement header, and the converse
direction recovers the settle result from that response. -/
theorem c4_settle_header_iff_success_witness :
    gate .respond402 sampleCfg sampleDecode sampleReq
        (.ok sampleValidVr) 200 (.ok sampleSettle) =
      ⟨true, true, true, .handlerPass (some (encodeSettleHeader sampleSettle))⟩
    ∧ ∃ sr, (.ok sampleSettle : RemoteOutcome SettleResponse) = .ok sr
        ∧ sr.success = true ∧ encodeSettleHeader sampleSettle = encodeSettleHeader sr :=
  ⟨c4_settle_header_iff_success.1 .respond402 sampleCfg sampleDecode sampleReq
      200 84532 sampleR0 samplePayment sampleValidVr sampleSettle
      (by decide) (by decide) (by decide) (by decide) (by rfl) (by decide)
      (by rfl) (by decide) (by decide) (by rfl),
   c4_settle_header_iff_success.2 .respond402 sampleCfg sampleDecode sampleReq
      (.ok sampleValidVr) 200 (.ok sampleSettle) (encodeSettleHeader sampleSettle)
      (by decide)⟩

/-! Claim C5: no settlement on a non-2xx handler response. -/

/-- C5: when the verified handler responds with a status outside [200, 300),
the gate passes that response through unmodified — no X-PAYMENT-RESPONSE
header — and the settle call is never made, whatever the facilitator would
have answered. -/
theorem c5_no_settlement_on_non2xx (policy : SettlePolicy) (cfg : GateConfig)
    (decode : String → Except String PaymentPayload)
    (req : HttpRequest) (hs : Int)
    (chain_id : Nat) (hchain : get_chain_id cfg.network_id = some chain_id)
    (r0 : PaymentRequirements)
    (hmk : mkPaymentRequirements ("exact") cfg.network_id (toString cfg.parsed_amount)
        (cfg.resource.getD req.url) cfg.description cfg.mime_type
        (cfg.output_schema.getD ("\x7b\x7d")) cfg.pay_to_address
        cfg.max_deadline_seconds cfg.asset
        ⟨get_token_name chain_id cfg.asset, get_token_version chain_id cfg.asset⟩ = some r0)
    (hmatch : path_is_match cfg.path req.path = true)
    (hhdr : req.payment_header ≠ "")
    (payment : PaymentPayload)
    (hdec : decode req.payment_header = .ok payment)
    (hsel : (r0.scheme == payment.scheme && r0.network == payment.network) = true)
    (vr : VerifyResponse) (hvalid : vr.is_valid = true)
    (hstatus : hs < 200 ∨ 300 ≤ hs) :
    ∀ so, gate policy cfg decode req (.ok vr) hs so =
      ⟨true, true, false, .handlerPass none⟩ := by
  intro so
  simp [gate, hmatch, hchain, hmk, hhdr, hdec, List.find?, hsel, hvalid, hstatus]

/-- Witness for C5: a handler 404 passes through unsettled even though the
facilitator would have settled successfully. -/
theorem c5_no_settlement_on_non2xx_witness :
    gate .respond402 sampleCfg sampleDecode sampleReq
        (.ok sampleValidVr) 404 (.ok sampleSettle) =
      ⟨true, true, false, .handlerPass none⟩ :=
  c5_no_settlement_on_non2xx .respond402 sampleCfg sampleDecode sampleReq 404
    84532 (by decide) sampleR0 (by decide) (by decide) (by decide) samplePayment
    (by rfl) (by decide) sampleValidVr (by rfl) (by decide) (.ok sampleSettle)
